import Mathlib

/-!
Shallow embedding of the credential-refresher core of
`palantir/go-oauth2-client` (Go package `token`).

Embedded from the source:
  * `tokenData` (here `TokenData`), `Refresher`, `NewRefresher`,
    `Token`, `waitForInitialized`, `updateToken` — `token/refresh.go`;
  * the body of one tick of `Run`'s refresh loop — `token/refresh.go`;
  * `NewRetryingTokenProvider` — `token/retry.go`;
  * `CreateAndStartRefreshingOAuthProvider` — `token/provider.go`.

Modelling conventions:
  * Go `time.Time` / `time.Duration` values are `Int` (nanoseconds);
    `time.Now().Sub(t0) > ttl` becomes `now - t0 > ttl`.
  * A Go `error` value is `GoError`; a possibly-nil error is
    `Option GoError`.  `werror.Wrap(err, msg, params)` keeps the cause,
    the message and the safe params, so equality of `GoError` compares
    all three.
  * The `select` in `waitForInitialized` is nondeterministic when both
    channels are ready; the Boolean `pick` resolves that race.
  * A context is its observable state at the call: whether `ctx.Done()`
    is closed, and the value of `ctx.Err()`.
  * Blocking is modelled by `Option`: `none` means the call never
    returns (it is still waiting).
  * The external retry policy (`palantir/pkg/retry`, a dependency whose
    code is not part of this repository) is modelled from the spec's
    collaborator contract; see `runTickLoop` and
    `NewRetryingTokenProvider` below.
-/

namespace OAuth2Client

/-- A Go `error` value as the refresher builds and compares them:
a leaf error (`werror.Error(msg)`), or a wrapped error
(`werror.Wrap(cause, msg, safeParams)`) whose cause was nil or non-nil.
Safe params are name/value pairs; all values the core attaches
(acquisition time, TTL, attempt count) are integral. -/
inductive GoError where
  | simple (msg : String)
  | wrapNil (msg : String) (params : List (String × Int))
  | wrap (cause : GoError) (msg : String) (params : List (String × Int))
deriving DecidableEq, Repr

/-- The top-level message of an error. -/
def GoError.message : GoError → String
  | .simple m => m
  | .wrapNil m _ => m
  | .wrap _ m _ => m

/-- Model of `werror.Wrap(err, msg, params...)` where `err` may be nil. -/
def werrorWrap (cause : Option GoError) (msg : String) (params : List (String × Int)) : GoError :=
  match cause with
  | none => .wrapNil msg params
  | some e => .wrap e msg params

/-- Go struct `tokenData` of `token/refresh.go`: the token last acquired
without error, the time it was acquired, and the error of the most
recent acquire attempt (nil if that attempt succeeded). -/
structure TokenData where
  token : String
  tokenAcquiredTime : Int
  tokenAcquireError : Option GoError
deriving DecidableEq, Repr

/-- Go struct `Refresher`: the cached `tokenData`, whether the
`tokenDataInitialized` channel has been closed, and the configured TTL.
The provider function and the lock are the surrounding execution model,
not state. -/
structure Refresher where
  tokenData : TokenData
  tokenDataInitialized : Bool
  tokenTTL : Int
deriving DecidableEq, Repr

/-- Constructor `NewRefresher`: empty token, zero acquisition time, a
"token is not yet initialized" error, gate not yet fired. -/
def NewRefresher (tokenTTL : Int) : Refresher :=
  { tokenData :=
      { token := ""
        tokenAcquiredTime := 0
        tokenAcquireError := some (.simple "token is not yet initialized") }
    tokenDataInitialized := false
    tokenTTL := tokenTTL }

/-- The observable state of a Go context at a call: whether its `Done`
channel is closed, and what `ctx.Err()` returns when it is. -/
structure Ctx where
  done : Bool
  err : GoError
deriving DecidableEq, Repr

/-- Method `waitForInitialized`: the `select` over `ctx.Done()` and the
`tokenDataInitialized` channel.  Result `none` means the select blocks
(neither channel ready); `some (some e)` means the context branch fired
with wrapped error `e`; `some none` means the gate branch fired.  When
both are ready Go picks a branch at random; `pick = true` resolves the
race in favour of the context branch. -/
def waitForInitialized (r : Refresher) (ctx : Ctx) (pick : Bool) : Option (Option GoError) :=
  if ctx.done && r.tokenDataInitialized then
    if pick then
      some (some (werrorWrap (some ctx.err) "context completed while waiting for initialized" []))
    else
      some none
  else if ctx.done then
    some (some (werrorWrap (some ctx.err) "context completed while waiting for initialized" []))
  else if r.tokenDataInitialized then
    some none
  else
    none

/-- Method `Token`: wait for initialization, then read the cached state under
the read lock at wall-clock time `now`.  `none` models a call that is
still blocked on the gate; `some (t, e)` is the returned pair. -/
def Token (r : Refresher) (ctx : Ctx) (pick : Bool) (now : Int) :
    Option (String × Option GoError) :=
  match waitForInitialized r ctx pick with
  | none => none
  | some (some e) => some ("", some e)
  | some none =>
    let errorParam : List (String × Int) :=
      [("tokenAcquiredTime", r.tokenData.tokenAcquiredTime), ("tokenTTL", r.tokenTTL)]
    if r.tokenData.token = "" then
      some ("", some (werrorWrap r.tokenData.tokenAcquireError
        "all attempts to retrieve a token have failed" errorParam))
    else if now - r.tokenData.tokenAcquiredTime > r.tokenTTL then
      match r.tokenData.tokenAcquireError with
      | some _ =>
        some ("", some (werrorWrap r.tokenData.tokenAcquireError
          "token is expired, attempts to obtain new token have failed" errorParam))
      | none =>
        some ("", some (werrorWrap r.tokenData.tokenAcquireError
          "token is expired, attempts to obtain new token have not completed" errorParam))
    else
      some (r.tokenData.token, none)

/-- Method `updateToken`: under the write lock, replace the whole `tokenData`
record — with the fresh token, `now` and a nil error on success, or with
the old token and time and the new error on failure — and close the
initialization channel if it is not already closed. -/
def updateToken (r : Refresher) (now : Int) (token : String) (err : Option GoError) : Refresher :=
  let newTokenData : TokenData :=
    match err with
    | none =>
      { token := token
        tokenAcquiredTime := now
        tokenAcquireError := none }
    | some _ =>
      { token := r.tokenData.token
        tokenAcquiredTime := r.tokenData.tokenAcquiredTime
        tokenAcquireError := err }
  { r with tokenData := newTokenData, tokenDataInitialized := true }

/-- One completed fetch attempt as the background loop sees it: the
wall-clock time at which `updateToken` runs for it, and the token/error
pair the provider returned. -/
structure Attempt where
  now : Int
  token : String
  err : Option GoError
deriving DecidableEq, Repr

/-- Apply a sequence of completed fetch attempts to a refresher, one
`updateToken` call per attempt, in order.  The reachable states of a
refresher are exactly `applyAttempts (NewRefresher ttl) os`. -/
def applyAttempts (r : Refresher) (os : List Attempt) : Refresher :=
  os.foldl (fun acc a => updateToken acc a.now a.token a.err) r

/-- The token of the most recent attempt in `os` whose error was nil,
if any attempt succeeded. -/
def lastSuccessToken : List Attempt → Option String
  | [] => none
  | a :: rest =>
    match lastSuccessToken rest with
    | some t => some t
    | none =>
      match a.err with
      | none => some a.token
      | some _ => none

/-- Body of one tick of `Run`'s refresh loop: `retry.Do` around the
closure that fetches a token and calls `r.updateToken(token, err)` on
every attempt, returning the closure error so that `retry.Do` retries
on failure and stops on success.  The list holds the provider outcome
of each attempt the external retry policy grants before it stops
(context cancellation or exhaustion); the loop stops early at the first
success.  Returns the refresher state when `retry.Do` settles and the
number of `updateToken` calls made during the tick. -/
def runTickLoop : Refresher → List Attempt → Refresher × Nat
  | r, [] => (r, 0)
  | r, a :: rest =>
    let updated := updateToken r a.now a.token a.err
    match a.err with
    | none => (updated, 1)
    | some _ =>
      let p := runTickLoop updated rest
      (p.1, p.2 + 1)

/-- The attempts of `os` the tick body actually runs: every attempt up
to and including the first successful one. -/
def attemptsRun : List Attempt → List Attempt
  | [] => []
  | a :: rest =>
    match a.err with
    | none => [a]
    | some _ => a :: attemptsRun rest

/-- The provider outcome of one attempt inside the retrying wrapper:
the token/error pair `provideToken(ctx)` returned. -/
structure FetchOutcome where
  token : String
  err : Option GoError
deriving DecidableEq, Repr

/-- The closure loop run by `retry.Do` inside the provider built by
`NewRetryingTokenProvider`: the captured variables `numAttempts`,
`token` and `err` after each attempt, stopping at the first success.
The list holds the provider outcome of each attempt the policy grants;
the Boolean result records whether the loop stopped with a success. -/
def retryLoop : Nat → String → Option GoError → List FetchOutcome →
    (Nat × String × Option GoError) × Bool
  | n, tok, e, [] => ((n, tok, e), false)
  | n, _, _, o :: rest =>
    match o.err with
    | none => ((n, o.token, none), true)
    | some e' => retryLoop (n + 1) o.token (some e') rest

/-- Go function `NewRetryingTokenProvider` of `token/retry.go`: one
invocation of the provider it returns.  `outcomes` is the sequence of
underlying-provider results for the attempts the external retry policy
grants before it stops; `cancelled` tells why `retry.Do` stopped when
no attempt succeeded; `ctxErr` is the value of `ctx.Err()` then.

Modelled from the spec: `retry.Do` of the external `palantir/pkg/retry`
collaborator (its code is not in this repository).  Per the spec it
invokes the action until the action returns nil, the policy signals
exhaustion, or the context is cancelled; it returns nil after a
success, the cancellation error when it stopped because the context was
cancelled, and otherwise the last error the action returned.  The code
around it is translated from `token/retry.go`: any non-nil result of
`retry.Do` is wrapped with message "token retrieval timed out" and the
safe param `numAttempts`. -/
def NewRetryingTokenProvider (outcomes : List FetchOutcome) (cancelled : Bool)
    (ctxErr : GoError) : String × Option GoError :=
  let run := retryLoop 0 "" none outcomes
  let numAttempts := run.1.1
  let token := run.1.2.1
  let closureErr := run.1.2.2
  let retryDoErr : Option GoError :=
    if run.2 then none
    else if cancelled then some ctxErr
    else closureErr
  match retryDoErr with
  | some e =>
    ("", some (werrorWrap (some e) "token retrieval timed out"
      [("numAttempts", (numAttempts : Int))]))
  | none => (token, none)

/-- Go function `CreateAndStartRefreshingOAuthProvider` of
`token/provider.go`: the `Refresher` it constructs.  Its
`refreshInterval` argument is passed to `NewRefresher` as the token
TTL; the client-credential fetch closure it wires in is the external
fetch collaborator and carries no state of its own. -/
def CreateAndStartRefreshingOAuthProvider (refreshInterval : Int) : Refresher :=
  NewRefresher refreshInterval

/-- The `Provider` value `CreateAndStartRefreshingOAuthProvider`
returns: the `Token` method of the refresher it constructs. -/
def CreateAndStartRefreshingOAuthProviderFn (refreshInterval : Int) :
    Ctx → Bool → Int → Option (String × Option GoError) :=
  Token (CreateAndStartRefreshingOAuthProvider refreshInterval)

/-- The `refreshInterval := r.tokenTTL / 2` computed at the top of
`Run`: the cadence of the jittered ticker (its initial and maximum
backoff are both this value). -/
def runRefreshInterval (r : Refresher) : Int :=
  r.tokenTTL / 2

/-! Helper lemmas shared by the claim theorems. -/

/-- The token cached after a sequence of attempts is the token of the
most recent successful attempt, or the starting token if none
succeeded. -/
lemma applyAttempts_token (os : List Attempt) :
    ∀ r : Refresher, (applyAttempts r os).tokenData.token =
      match lastSuccessToken os with
      | some t => t
      | none => r.tokenData.token := by
  induction os with
  | nil => intro r; rfl
  | cons a rest ih =>
    intro r
    have hstep : applyAttempts r (a :: rest) =
        applyAttempts (updateToken r a.now a.token a.err) rest := rfl
    rw [hstep, ih]
    cases hls : lastSuccessToken rest with
    | some t => simp [lastSuccessToken, hls]
    | none =>
      cases hae : a.err with
      | none => simp [lastSuccessToken, hls, hae, updateToken]
      | some e0 => simp [lastSuccessToken, hls, hae, updateToken]

/-- The closure loop after a block of failures followed by a success:
the attempt count grows by the number of failures, the captured token
is the successful one, and the loop reports success. -/
lemma retryLoop_append_success :
    ∀ (pre : List FetchOutcome) (n : Nat) (tok : String) (e : Option GoError)
      (t : String) (rest : List FetchOutcome),
      (∀ x ∈ pre, x.err ≠ none) →
      retryLoop n tok e (pre ++ ⟨t, none⟩ :: rest) = ((n + pre.length, t, none), true) := by
  intro pre
  induction pre with
  | nil => intro n tok e t rest _; simp [retryLoop]
  | cons a as ih =>
    intro n tok e t rest hall
    cases hae : a.err with
    | none => exact absurd hae (hall a (by simp))
    | some e0 =>
      have hrec : retryLoop n tok e ((a :: as) ++ ⟨t, none⟩ :: rest) =
          retryLoop (n + 1) a.token (some e0) (as ++ ⟨t, none⟩ :: rest) := by
        simp [retryLoop, hae]
      rw [hrec, ih (n + 1) a.token (some e0) t rest (fun x hx => hall x (by simp [hx]))]
      simp [Nat.add_assoc, Nat.add_comm 1 as.length]

/-- The closure loop over failures only, ending with a final failure:
the attempt count grows by the length, the captured error is the final
one, and the loop reports no success. -/
lemma retryLoop_append_fail :
    ∀ (pre : List FetchOutcome) (n : Nat) (tok : String) (e : Option GoError)
      (o : FetchOutcome) (e0 : GoError),
      (∀ x ∈ pre, x.err ≠ none) → o.err = some e0 →
      retryLoop n tok e (pre ++ [o]) = ((n + pre.length + 1, o.token, some e0), false) := by
  intro pre
  induction pre with
  | nil => intro n tok e o e0 _ ho; simp [retryLoop, ho]
  | cons a as ih =>
    intro n tok e o e0 hall ho
    cases hae : a.err with
    | none => exact absurd hae (hall a (by simp))
    | some e1 =>
      have hrec : retryLoop n tok e ((a :: as) ++ [o]) =
          retryLoop (n + 1) a.token (some e1) (as ++ [o]) := by
        simp [retryLoop, hae]
      rw [hrec, ih (n + 1) a.token (some e1) o e0 (fun x hx => hall x (by simp [hx])) ho]
      simp [Nat.add_assoc, Nat.add_comm 1 as.length]

/-- Over a list of failures only, the closure loop never reports
success and counts one attempt per outcome. -/
lemma retryLoop_count :
    ∀ (os : List FetchOutcome) (n : Nat) (tok : String) (e : Option GoError),
      (∀ x ∈ os, x.err ≠ none) →
      ∃ tokf ef, retryLoop n tok e os = ((n + os.length, tokf, ef), false) := by
  intro os
  induction os with
  | nil => intro n tok e _; exact ⟨tok, e, by simp [retryLoop]⟩
  | cons a as ih =>
    intro n tok e hall
    cases hae : a.err with
    | none => exact absurd hae (hall a (by simp))
    | some e0 =>
      have hrec : retryLoop n tok e (a :: as) =
          retryLoop (n + 1) a.token (some e0) as := by
        simp [retryLoop, hae]
      obtain ⟨tokf, ef, hres⟩ := ih (n + 1) a.token (some e0)
        (fun x hx => hall x (by simp [hx]))
      refine ⟨tokf, ef, ?_⟩
      rw [hrec, hres]
      simp [Nat.add_assoc, Nat.add_comm 1 as.length]

/-! Claim theorems. -/

/-- C1: whenever a `Token` call returns, the result is either a
non-empty token with a nil error or the empty string with a non-nil
error — `("", nil)` and a non-empty token paired with an error are both
impossible.  The statement quantifies over every refresher state, so it
holds in particular for every state reachable by any sequence of fetch
outcomes. -/
theorem Token_result_consistent (r : Refresher) (ctx : Ctx) (pick : Bool) (now : Int)
    (t : String) (e : Option GoError)
    (h : Token r ctx pick now = some (t, e)) :
    (t ≠ "" ∧ e = none) ∨ (t = "" ∧ e ≠ none) := by
  unfold Token at h
  split at h
  · exact Option.noConfusion h
  · simp only [Option.some.injEq, Prod.mk.injEq] at h
    right
    exact ⟨h.1.symm, by rw [← h.2]; simp⟩
  · dsimp only at h
    split at h
    · simp only [Option.some.injEq, Prod.mk.injEq] at h
      right
      exact ⟨h.1.symm, by rw [← h.2]; simp⟩
    · rename_i htok
      split at h
      · split at h
        · simp only [Option.some.injEq, Prod.mk.injEq] at h
          right
          exact ⟨h.1.symm, by rw [← h.2]; simp⟩
        · simp only [Option.some.injEq, Prod.mk.injEq] at h
          right
          exact ⟨h.1.symm, by rw [← h.2]; simp⟩
      · simp only [Option.some.injEq, Prod.mk.injEq] at h
        left
        exact ⟨by rw [← h.1]; exact htok, h.2.symm⟩

/-- Witness for C1 at a concrete reachable state: one successful fetch
of "tok" at time 0, read at time 5 with TTL 10. -/
theorem Token_result_consistent_witness :
    (("tok" : String) ≠ "" ∧ (none : Option GoError) = none) ∨
    (("tok" : String) = "" ∧ (none : Option GoError) ≠ none) :=
  Token_result_consistent (updateToken (NewRefresher 10) 0 "tok" none)
    ⟨false, .simple "c"⟩ false 5 "tok" none (by decide)

/-- C2: after the gate has fired, a non-empty cached token that is at
most TTL old is returned with a nil error, whatever the stored
`tokenAcquireError` is — the most recent attempt may have failed and
the cached token is still served. -/
theorem Token_fresh_cache_hit (r : Refresher) (ctx : Ctx) (pick : Bool) (now : Int)
    (hinit : r.tokenDataInitialized = true) (hctx : ctx.done = false)
    (htok : r.tokenData.token ≠ "")
    (hfresh : ¬ now - r.tokenData.tokenAcquiredTime > r.tokenTTL) :
    Token r ctx pick now = some (r.tokenData.token, none) := by
  have hw : waitForInitialized r ctx pick = some none := by
    unfold waitForInitialized
    rw [hctx, hinit]
    simp
  unfold Token
  rw [hw]
  simp [htok, hfresh]

/-- Witness for C2: a success of "tok" at time 0 followed by a failed
attempt at time 3, read at time 5 with TTL 10 — the stored
`tokenAcquireError` is non-nil and "tok" is still returned. -/
theorem Token_fresh_cache_hit_witness :
    Token (updateToken (updateToken (NewRefresher 10) 0 "tok" none) 3 ""
        (some (.simple "boom"))) ⟨false, .simple "c"⟩ false 5 =
      some ((updateToken (updateToken (NewRefresher 10) 0 "tok" none) 3 ""
        (some (.simple "boom"))).tokenData.token, none) :=
  Token_fresh_cache_hit _ _ false 5 (by decide) rfl (by decide) (by decide)

/-- C3 counterexample: at a concrete reachable state with an empty
cached token, the error message `Token` produces is
"all attempts to retrieve a token have failed", which is not the
message "all attempts to retrieve a credential have failed" that the
claim states (the code says "token" where the claim says "credential";
likewise for the two expiry messages). -/
theorem Token_message_token_not_credential :
    Token (updateToken (NewRefresher 10) 0 "" (some (.simple "boom")))
        ⟨false, .simple "c"⟩ false 5 =
      some ("", some (.wrap (.simple "boom")
        "all attempts to retrieve a token have failed"
        [("tokenAcquiredTime", 0), ("tokenTTL", 10)])) ∧
    "all attempts to retrieve a token have failed" ≠
      "all attempts to retrieve a credential have failed" := by
  decide

/-- C3 as amended: after the gate has fired, the error branch taken
matches the case analysis with the messages the code actually uses —
empty token wraps the stored error with "all attempts to retrieve a
token have failed"; an expired token with a non-nil stored error wraps
it with "token is expired, attempts to obtain new token have failed";
an expired token with a nil stored error yields "token is expired,
attempts to obtain new token have not completed"; each error carries
the acquisition time and the TTL as safe params. -/
theorem Token_error_branches (r : Refresher) (ctx : Ctx) (pick : Bool) (now : Int)
    (hinit : r.tokenDataInitialized = true) (hctx : ctx.done = false) :
    (r.tokenData.token = "" →
      Token r ctx pick now = some ("", some (werrorWrap r.tokenData.tokenAcquireError
        "all attempts to retrieve a token have failed"
        [("tokenAcquiredTime", r.tokenData.tokenAcquiredTime), ("tokenTTL", r.tokenTTL)]))) ∧
    (r.tokenData.token ≠ "" → now - r.tokenData.tokenAcquiredTime > r.tokenTTL →
      ((∃ e0, r.tokenData.tokenAcquireError = some e0 ∧
        Token r ctx pick now = some ("", some (.wrap e0
          "token is expired, attempts to obtain new token have failed"
          [("tokenAcquiredTime", r.tokenData.tokenAcquiredTime), ("tokenTTL", r.tokenTTL)]))) ∨
       (r.tokenData.tokenAcquireError = none ∧
        Token r ctx pick now = some ("", some (.wrapNil
          "token is expired, attempts to obtain new token have not completed"
          [("tokenAcquiredTime", r.tokenData.tokenAcquiredTime), ("tokenTTL", r.tokenTTL)]))))) := by
  have hw : waitForInitialized r ctx pick = some none := by
    unfold waitForInitialized
    rw [hctx, hinit]
    simp
  constructor
  · intro htok
    unfold Token
    rw [hw]
    simp [htok]
  · intro htok hexp
    cases hacq : r.tokenData.tokenAcquireError with
    | some e0 =>
      left
      refine ⟨e0, rfl, ?_⟩
      unfold Token
      rw [hw]
      simp [htok, hexp, hacq, werrorWrap]
    | none =>
      right
      refine ⟨rfl, ?_⟩
      unfold Token
      rw [hw]
      simp [htok, hexp, hacq, werrorWrap]

/-- Witness for C3 as amended: the empty-token branch at a concrete
state (one failed attempt after construction), read at time 5 with
TTL 10. -/
theorem Token_error_branches_witness :
    (updateToken (NewRefresher 10) 0 "" (some (.simple "boom"))).tokenData.token = "" ∧
    Token (updateToken (NewRefresher 10) 0 "" (some (.simple "boom")))
        ⟨false, .simple "c"⟩ false 5 =
      some ("", some (werrorWrap
        (updateToken (NewRefresher 10) 0 "" (some (.simple "boom"))).tokenData.tokenAcquireError
        "all attempts to retrieve a token have failed"
        [("tokenAcquiredTime",
            (updateToken (NewRefresher 10) 0 "" (some (.simple "boom"))).tokenData.tokenAcquiredTime),
         ("tokenTTL",
            (updateToken (NewRefresher 10) 0 "" (some (.simple "boom"))).tokenTTL)])) :=
  ⟨by decide,
    (Token_error_branches (updateToken (NewRefresher 10) 0 "" (some (.simple "boom")))
      ⟨false, .simple "c"⟩ false 5 (by decide) rfl).1 (by decide)⟩

/-- C4: `updateToken` on success replaces the whole cached record with
the new token, the supplied time and a nil error; on failure it keeps
the token and acquisition-time fields unchanged and replaces only the
stored error. -/
theorem updateToken_frame (r : Refresher) (now : Int) (tok : String) (e0 : GoError) :
    (updateToken r now tok none).tokenData =
      { token := tok, tokenAcquiredTime := now, tokenAcquireError := none } ∧
    (updateToken r now tok (some e0)).tokenData.token = r.tokenData.token ∧
    (updateToken r now tok (some e0)).tokenData.tokenAcquiredTime =
      r.tokenData.tokenAcquiredTime ∧
    (updateToken r now tok (some e0)).tokenData.tokenAcquireError = some e0 :=
  ⟨rfl, rfl, rfl, rfl⟩

/-- C5: over every sequence of `updateToken` calls starting from the
constructed state, the cached token is the token of the most recent
successful attempt, or the empty string if none succeeded — a value the
provider returned together with an error is never cached.  The second
part exhibits a reachable state where a non-empty token from an earlier
success is cached while the stored error of a later failed attempt is
non-nil. -/
theorem refresher_token_from_last_success :
    (∀ (ttl : Int) (os : List Attempt),
      (applyAttempts (NewRefresher ttl) os).tokenData.token =
        match lastSuccessToken os with
        | some t => t
        | none => "") ∧
    ((applyAttempts (NewRefresher 10)
        [⟨2, "tok", none⟩, ⟨4, "bad", some (.simple "boom")⟩]).tokenData.token = "tok" ∧
     (applyAttempts (NewRefresher 10)
        [⟨2, "tok", none⟩, ⟨4, "bad", some (.simple "boom")⟩]).tokenData.tokenAcquireError =
       some (.simple "boom")) := by
  refine ⟨fun ttl os => ?_, by decide, by decide⟩
  exact applyAttempts_token os (NewRefresher ttl)

/-- C6 counterexample: a tick whose inner retry loop is granted a
failed attempt and then a successful one performs two `updateToken`
calls, not exactly one; and already after the first (failed, unsettled)
attempt the cached record holds that attempt's error, so the update is
not deferred to the settle point. -/
theorem runTick_not_single_update :
    (runTickLoop (NewRefresher 10)
        [⟨1, "", some (.simple "f1")⟩, ⟨2, "tok", none⟩]).2 = 2 ∧
    (2 : Nat) ≠ 1 ∧
    (updateToken (NewRefresher 10) 1 "" (some (.simple "f1"))).tokenData.tokenAcquireError =
      some (.simple "f1") := by
  decide

/-- C6 as amended: during each tick of the refresh loop, the cached
record is updated exactly once per fetch attempt the inner retry loop
runs (every attempt up to and including the first success), immediately
after that attempt — so the state when the tick settles is the fold of
`updateToken` over exactly those attempts and the number of updates is
their count, not one. -/
theorem runTick_updates_once_per_attempt (r : Refresher) (os : List Attempt) :
    runTickLoop r os = (applyAttempts r (attemptsRun os), (attemptsRun os).length) := by
  induction os generalizing r with
  | nil => rfl
  | cons a rest ih =>
    cases hae : a.err with
    | none =>
      simp [runTickLoop, attemptsRun, hae, applyAttempts]
    | some e0 =>
      simp [runTickLoop, attemptsRun, hae, ih, applyAttempts]

/-- C7: one invocation of the provider built by
`NewRetryingTokenProvider` re-invokes the underlying provider until an
attempt returns a nil error or the policy stops granting attempts; a
success returns that attempt's token with a nil error (whatever follows
is never run); when every granted attempt failed and the policy gave
up, the result is the empty string and a wrapped "token retrieval timed
out" error that embeds the final underlying error and carries the
number of attempts made as the safe param `numAttempts`.  The attempt
count is a function of this invocation's outcome list alone — counting
restarts at zero each invocation and no state crosses invocations. -/
theorem NewRetryingTokenProvider_contract :
    (∀ (pre : List FetchOutcome) (t : String) (rest : List FetchOutcome)
        (cancelled : Bool) (ce : GoError),
      (∀ x ∈ pre, x.err ≠ none) →
      NewRetryingTokenProvider (pre ++ ⟨t, none⟩ :: rest) cancelled ce = (t, none)) ∧
    (∀ (pre : List FetchOutcome) (o : FetchOutcome) (e0 : GoError) (ce : GoError),
      (∀ x ∈ pre, x.err ≠ none) → o.err = some e0 →
      NewRetryingTokenProvider (pre ++ [o]) false ce =
        ("", some (.wrap e0 "token retrieval timed out"
          [("numAttempts", ((pre.length + 1 : Nat) : Int))]))) := by
  constructor
  · intro pre t rest cancelled ce hall
    unfold NewRetryingTokenProvider
    rw [retryLoop_append_success pre 0 "" none t rest hall]
    simp
  · intro pre o e0 ce hall ho
    unfold NewRetryingTokenProvider
    rw [retryLoop_append_fail pre 0 "" none o e0 hall ho]
    simp [werrorWrap]

/-- Witness for C7: a failure then a success returns the successful
token; two failures with the policy giving up returns the wrap of the
final error with attempt count 2. -/
theorem NewRetryingTokenProvider_contract_witness :
    NewRetryingTokenProvider [⟨"", some (.simple "f1")⟩, ⟨"tok", none⟩] false (.simple "c") =
      ("tok", none) ∧
    NewRetryingTokenProvider [⟨"", some (.simple "f1")⟩, ⟨"", some (.simple "f2")⟩] false
        (.simple "c") =
      ("", some (.wrap (.simple "f2") "token retrieval timed out" [("numAttempts", 2)])) := by
  constructor
  · have := NewRetryingTokenProvider_contract.1 [⟨"", some (.simple "f1")⟩] "tok" [] false
      (.simple "c") (by decide)
    simpa using this
  · have := NewRetryingTokenProvider_contract.2 [⟨"", some (.simple "f1")⟩]
      ⟨"", some (.simple "f2")⟩ (.simple "f2") (.simple "c") (by decide) rfl
    simpa using this

/-- C8 counterexample: with the context cancelled after one failed
attempt, the operation returns the "token retrieval timed out" wrap of
the cancellation error, which is not the cancellation error itself —
the claim that the cancellation error is returned (rather than a
retry-exhaustion error) fails. -/
theorem NewRetryingTokenProvider_cancel_counterexample :
    NewRetryingTokenProvider [⟨"", some (.simple "f1")⟩] true (.simple "context canceled") =
      ("", some (.wrap (.simple "context canceled") "token retrieval timed out"
        [("numAttempts", 1)])) ∧
    (some (.wrap (.simple "context canceled") "token retrieval timed out"
        [("numAttempts", 1)]) : Option GoError) ≠
      some (.simple "context canceled") := by
  decide

/-- C8 as amended: if the context is cancelled mid-retry (no granted
attempt succeeded and the policy stopped because of the cancellation),
the retrying stops and the operation returns the empty string together
with an error of message "token retrieval timed out" that wraps the
cancellation error as its cause and carries the attempt count — the
cancellation error is embedded, not returned directly. -/
theorem NewRetryingTokenProvider_cancelled (os : List FetchOutcome) (ce : GoError)
    (hall : ∀ x ∈ os, x.err ≠ none) :
    NewRetryingTokenProvider os true ce =
      ("", some (.wrap ce "token retrieval timed out"
        [("numAttempts", (os.length : Int))])) := by
  obtain ⟨tokf, ef, hres⟩ := retryLoop_count os 0 "" none hall
  unfold NewRetryingTokenProvider
  rw [hres]
  simp [werrorWrap]

/-- Witness for C8 as amended: one failed attempt, then cancellation. -/
theorem NewRetryingTokenProvider_cancelled_witness :
    NewRetryingTokenProvider [⟨"", some (.simple "f1")⟩] true (.simple "cc") =
      ("", some (.wrap (.simple "cc") "token retrieval timed out" [("numAttempts", 1)])) := by
  have := NewRetryingTokenProvider_cancelled [⟨"", some (.simple "f1")⟩] (.simple "cc")
    (by decide)
  simpa using this

/-- C9 counterexample: a `Token` call with a cancelled context before
the gate has fired returns an error whose message is "context completed
while waiting for initialized" — not the message "context completed
while waiting for initialization" that the claim states. -/
theorem Token_wait_message_counterexample :
    Token (NewRefresher 10) ⟨true, .simple "context canceled"⟩ true 0 =
      some ("", some (.wrap (.simple "context canceled")
        "context completed while waiting for initialized" [])) ∧
    "context completed while waiting for initialized" ≠
      "context completed while waiting for initialization" := by
  decide

/-- C9 as amended: a `Token` call whose context is done before the gate
has fired returns (without blocking) the empty string and the wrap of
the context error with message "context completed while waiting for
initialized"; the result is the same for every cached record `td`, so
no cached credential state is read. -/
theorem Token_cancelled_before_init (td : TokenData) (ttl : Int) (ctx : Ctx)
    (pick : Bool) (now : Int) (hdone : ctx.done = true) :
    Token ⟨td, false, ttl⟩ ctx pick now =
      some ("", some (.wrap ctx.err "context completed while waiting for initialized" [])) := by
  unfold Token waitForInitialized
  rw [hdone]
  simp [werrorWrap]

/-- Witness for C9 as amended: the freshly constructed refresher and an
already-cancelled context. -/
theorem Token_cancelled_before_init_witness :
    Token ⟨(NewRefresher 10).tokenData, false, 10⟩ ⟨true, .simple "cc"⟩ false 0 =
      some ("", some (.wrap (.simple "cc")
        "context completed while waiting for initialized" [])) :=
  Token_cancelled_before_init (NewRefresher 10).tokenData 10 ⟨true, .simple "cc"⟩ false 0 rfl

/-- C10: the refresher constructed by
`CreateAndStartRefreshingOAuthProvider` has its TTL equal to the
`refreshInterval` argument (the argument is really the credential TTL),
the background loop ticks at half that value, and the returned provider
is the `Token` method of that refresher. -/
theorem CreateAndStart_refreshInterval_is_ttl (i : Int) :
    (CreateAndStartRefreshingOAuthProvider i).tokenTTL = i ∧
    runRefreshInterval (CreateAndStartRefreshingOAuthProvider i) = i / 2 ∧
    CreateAndStartRefreshingOAuthProviderFn i =
      Token (CreateAndStartRefreshingOAuthProvider i) :=
  ⟨rfl, rfl, rfl⟩

end OAuth2Client
